import Mathlib

/-!
Verification of the satellite-imagery transcoding pipeline
(`src/lambda_function.py`) against its natural-language specification.

The Python source is shallowly embedded below.  Images are modelled
semantically: a decoded image carries the Pillow mode string, the size, a
per-pixel RGBA quadruple (for palette images the quadruple is the colour that
the palette assigns to the index of the pixel, with alpha 0 when the index is
the transparency entry and 255 otherwise), the presence of a transparency key
in image.info, the EXIF orientation tag, and the decoder-reported format.
The resampler and the orientation transposition of the external imaging
library are parameters of the embedding (the code treats them as opaque
library calls); the object store, the event parser and the decoder are
oracles supplied in a HandlerEnv, exactly mirroring which call sites of the
handler can fail.
-/

namespace ImgPipe

/-- One pixel, as an RGBA quadruple of 8-bit channel values. -/
structure Px where
  r : Nat
  g : Nat
  b : Nat
  a : Nat
deriving DecidableEq, Repr

/-- A Pillow image as the handler sees it: mode string, size, semantic RGBA
pixels, whether `image.info` holds a `transparency` entry, the EXIF
orientation tag if any, and the decoder-reported `image.format`. -/
structure PImage where
  mode : String
  width : Nat
  height : Nat
  pixels : List Px
  hasTransparencyInfo : Bool
  exifOrientation : Option Nat
  format : Option String
deriving DecidableEq, Repr

/-- Default of the PROCESSED_PREFIX configuration value (source line 16). -/
def PROCESSED_PREFIX : String := "processed/"

/-- Default of the MAX_INPUT_SIZE_BYTES configuration value: 50 MiB. -/
def MAX_INPUT_SIZE_BYTES : Nat := 50 * 1024 * 1024

/-- Fallback output format, source line 19. -/
def DEFAULT_OUTPUT_FORMAT : String := "JPEG"

/-- Content-type table CONTENT_TYPE_MAP from the source, as an association list. -/
def CONTENT_TYPE_MAP : List (String × String) :=
  [("JPEG", "image/jpeg"), ("JPG", "image/jpeg"),
   ("PNG", "image/png"), ("WEBP", "image/webp")]

/-- Dictionary lookup and key membership on CONTENT_TYPE_MAP. -/
def ctGet (k : String) : Option String :=
  (CONTENT_TYPE_MAP.find? (fun p => p.1 == k)).map (fun p => p.2)

/-- Python str.upper (structural-recursion version of String.toUpper, so
that concrete runs reduce inside the kernel). -/
def pyUpper (s : String) : String := String.mk (s.data.map Char.toUpper)

/-- Python str.lower (structural-recursion version of String.toLower). -/
def pyLower (s : String) : String := String.mk (s.data.map Char.toLower)

/-- Python membership test of a character in a string (structural version of
String.contains). -/
def pyContains (s : String) (c : Char) : Bool := s.data.contains c

/-- Python str.startswith (structural version of String.startsWith). -/
def pyStartsWith (s p : String) : Bool := p.data.isPrefixOf s.data

/-- Embedding of the format-selection helper, source lines 36-45.  Python
truthiness: the guard on original_format is false for None and for the empty
string. -/
def determine_output_format (original_format : Option String) (image : PImage) : String :=
  let fallthrough := if pyContains image.mode 'A' then "PNG" else DEFAULT_OUTPUT_FORMAT
  match original_format with
  | none => fallthrough
  | some s =>
      if s = "" then fallthrough
      else
        let fmt := pyUpper s
        if (ctGet fmt).isSome then fmt else fallthrough

/-- Fixed-point MULDIV255 of Pillow: with t = a * b + 128, the result is
((t >> 8) + t) >> 8. -/
def muldiv255 (a b : Nat) : Nat :=
  let t := a * b + 128
  ((t >>> 8) + t) >>> 8

/-- One channel of pasting with an alpha mask over a white background, as
Pillow blends it: MULDIV255 of the background with 255 - mask plus MULDIV255
of the source with the mask, the background channel being 255. -/
def pasteBlendWhite (c a : Nat) : Nat :=
  muldiv255 255 (255 - a) + muldiv255 c a

/-- Per-pixel compositing over opaque white; the result is opaque. -/
def compositeWhitePx (p : Px) : Px :=
  ⟨pasteBlendWhite p.r p.a, pasteBlendWhite p.g p.a, pasteBlendWhite p.b p.a, 255⟩

/-- Embedding of image.convert to mode RGB: drops alpha (palette indices are
replaced by their palette colours, transparency entries ignored). -/
def convert_RGB (image : PImage) : PImage :=
  { image with
    mode := "RGB"
    pixels := image.pixels.map (fun p => ⟨p.r, p.g, p.b, 255⟩)
    hasTransparencyInfo := false
    format := none }

/-- Embedding of image.convert to mode RGBA: keeps the semantic alpha when
the current mode carries one (an A in the mode string, or a palette with a
transparency entry), otherwise the new alpha channel is fully opaque. -/
def convert_RGBA (image : PImage) : PImage :=
  { image with
    mode := "RGBA"
    pixels :=
      if pyContains image.mode 'A' || (image.mode == "P" && image.hasTransparencyInfo) then
        image.pixels
      else
        image.pixels.map (fun p => ⟨p.r, p.g, p.b, 255⟩)
    hasTransparencyInfo := false
    format := none }

/-- Embedding of the compositing helper, source lines 48-54. -/
def composite_for_jpeg (image : PImage) : PImage :=
  if image.mode = "RGBA" ∨ image.mode = "LA" ∨ (image.mode = "P" ∧ image.hasTransparencyInfo) then
    { mode := "RGB"
      width := image.width
      height := image.height
      pixels := (convert_RGBA image).pixels.map compositeWhitePx
      hasTransparencyInfo := false
      exifOrientation := none
      format := none }
  else
    convert_RGB image

/-- Embedding of ImageOps.exif_transpose (called at source line 114): when
the EXIF orientation tag is one of 2..8 the corresponding transposition t is
applied to the pixel buffer (and may swap the dimensions) and the tag is
deleted; otherwise the image is returned as a plain copy.  The transposition
itself is a library primitive, so it is a parameter of the embedding. -/
def exif_transpose (t : Nat → Nat × Nat × List Px → Nat × Nat × List Px)
    (image : PImage) : PImage :=
  match image.exifOrientation with
  | none => image
  | some o =>
      if 2 ≤ o ∧ o ≤ 8 then
        let whp := t o (image.width, image.height, image.pixels)
        { image with
          width := whp.1
          height := whp.2.1
          pixels := whp.2.2
          exifOrientation := none }
      else image

/-- Colour-mode normalization, source line 115: convert to RGBA when the mode
string contains an A, else convert to RGB. -/
def normalize_mode (image : PImage) : PImage :=
  if pyContains image.mode 'A' then convert_RGBA image else convert_RGB image

/-- Embedding of image.resize with the Lanczos filter, source line 116: the
resampler is a library primitive, kept as a parameter; it preserves the mode
and produces a 256x256 image. -/
def resize256 (resample : Nat × Nat → List Px → List Px) (image : PImage) : PImage :=
  { image with
    width := 256
    height := 256
    pixels := resample (image.width, image.height) image.pixels }

/-- Source lines 114-126: orientation normalization, colour-mode
normalization, resize, then the transparency-aware pre-encode conversion
(the compositing helper runs exactly when the chosen format is JPEG or JPG). -/
def transcode_pipeline (t : Nat → Nat × Nat × List Px → Nat × Nat × List Px)
    (resample : Nat × Nat → List Px → List Px)
    (image : PImage) (output_format : String) : PImage :=
  let resized := resize256 resample (normalize_mode (exif_transpose t image))
  if output_format = "JPEG" ∨ output_format = "JPG" then composite_for_jpeg resized
  else resized

/-- The identity transposition, used to instantiate the library parameter on
concrete runs. -/
def idTranspose : Nat → Nat × Nat × List Px → Nat × Nat × List Px := fun _ x => x

/-- The identity resampler, used to instantiate the library parameter on
concrete runs. -/
def idResample : Nat × Nat → List Px → List Px := fun _ px => px

/-! ### POSIX path helpers (the os.path module on the POSIX runtime) -/

/-- Index of the last occurrence of a character (Python str.rfind, as an
Option). -/
def rfindIdx (c : Char) : List Char → Option Nat
  | [] => none
  | x :: xs =>
      match rfindIdx c xs with
      | some i => some (i + 1)
      | none => if x = c then some 0 else none

/-- Embedding of posixpath.basename: everything after the last slash. -/
def pyBasename (l : List Char) : List Char :=
  match rfindIdx '/' l with
  | none => l
  | some i => l.drop (i + 1)

/-- Embedding of posixpath.dirname: everything up to the last slash, with
trailing slashes stripped unless the head is all slashes. -/
def pyDirname (l : List Char) : List Char :=
  match rfindIdx '/' l with
  | none => []
  | some i =>
      let head := l.take (i + 1)
      if head.all (fun c => c = '/') then head
      else (head.reverse.dropWhile (fun c => c = '/')).reverse

/-- Embedding of posixpath.splitext: split at the last dot of the final
component, unless every character between the last separator and that dot is
itself a dot (leading dots do not start an extension). -/
def pySplitext (l : List Char) : List Char × List Char :=
  let sepIdx : Int := match rfindIdx '/' l with | some i => (i : Int) | none => -1
  match rfindIdx '.' l with
  | none => (l, [])
  | some dotIdx =>
      if sepIdx < (dotIdx : Int) then
        let nameStart := (sepIdx + 1).toNat
        if ((l.drop nameStart).take (dotIdx - nameStart)).all (fun c => c = '.') then (l, [])
        else (l.take dotIdx, l.drop dotIdx)
      else (l, [])

/-- String wrapper for pyBasename. -/
def os_path_basename (s : String) : String := String.mk (pyBasename s.data)

/-- String wrapper for pyDirname. -/
def os_path_dirname (s : String) : String := String.mk (pyDirname s.data)

/-- String wrapper for pySplitext. -/
def os_path_splitext (s : String) : String × String :=
  let p := pySplitext s.data
  (String.mk p.1, String.mk p.2)

/-- Python str.rstrip with the slash character. -/
def rstrip_slash (s : String) : String :=
  String.mk ((s.data.reverse.dropWhile (fun c => c = '/')).reverse)

/-- Output-key derivation, source lines 144-151.  The configured prefix is a
parameter (the source reads the module-level `PROCESSED_PREFIX`). -/
def build_output_key (processedPrefix key output_format : String) : String :=
  let filename := os_path_basename key
  let name_root := (os_path_splitext filename).1
  let ext := pyLower output_format
  let key_dir := os_path_dirname key
  let processed_subpath :=
    if key_dir = "" then name_root ++ "." ++ ext
    else key_dir ++ "/" ++ (name_root ++ "." ++ ext)
  rstrip_slash processedPrefix ++ "/" ++ processed_subpath

/-- Spec-side mapKey, stated in the words of section 4.6 of the spec:
preserve the directory portion, replace the extension of the filename with
the lowercase format name, and prefix with the processed prefix joined by
exactly one separator.  Used only to compare with build_output_key, which is
translated from the source. -/
def mapKey_spec (inputKey processedPrefix outputFormat : String) : String :=
  let dir := os_path_dirname inputKey
  let newBase := (os_path_splitext (os_path_basename inputKey)).1 ++ "." ++ pyLower outputFormat
  rstrip_slash processedPrefix ++ "/" ++ (if dir = "" then newBase else dir ++ "/" ++ newBase)

/-! ### The handler -/

/-- Escape of a single character as json.dumps performs it on the ASCII
message strings the handler produces. -/
def jsonEscapeChar (c : Char) : String :=
  if c = '"' then "\\\"" else if c = '\\' then "\\\\" else String.singleton c

/-- Model of json.dumps on a message string: quote-wrap, escaping backslash
and double quote. -/
def jsonDumps (s : String) : String :=
  "\"" ++ String.join (s.data.map jsonEscapeChar) ++ "\""

/-- Object-store response of get_object, as the handler reads it.  The
bodyRead field is the outcome of reading the streaming body at source line
96, which can raise. -/
structure S3GetResp where
  contentLength : Option Nat
  contentType : Option String
  metadata : List (String × String)
  bodyRead : Except String (List Nat)

/-- Externally observable store / decode operations the handler performs. -/
inductive Effect where
  | s3Get
  | bodyRead
  | decode
  | s3Put
deriving DecidableEq, Repr

/-- Return value of the handler: a status code and a body string. -/
structure Response where
  statusCode : Nat
  body : String
deriving DecidableEq, Repr

/-- Store write issued by put_object on success, source lines 156-163. -/
structure PutRequest where
  bucket : String
  key : String
  contentType : String
  metadata : List (String × String)
  savedImage : PImage
deriving DecidableEq, Repr

/-- Oracles for every external call site of `lambda_handler`, in source
order: event parsing (lines 68-75, collapsing the exception text),
`get_object` (line 85), the decoder (lines 101-106), the two library
primitives, a possible exception inside the resize `try` (lines 113-119), a
possible exception from `save` (lines 137-142), and `put_object`
(lines 156-166). -/
structure HandlerEnv where
  parsedRecord : Except String (String × String)
  getResult : Except String S3GetResp
  decodeResult : Except String PImage
  transposeOp : Nat → Nat × Nat × List Px → Nat × Nat × List Px
  resample : Nat × Nat → List Px → List Px
  resizeRaises : Option String
  saveRaises : Option String
  putResult : Except String Unit

/-- What one invocation produced: the Python return value (or a propagated
exception, as `Except.error`), the external operations performed, and the
store write if one was issued. -/
structure HandlerOutcome where
  response : Except String Response
  effects : List Effect
  putCall : Option PutRequest

/-- Source lines 96-170: everything after the size guard.  Reads the fetch
response only through its `bodyRead`, `contentType` and `metadata` fields. -/
def handler_fetch_done (env : HandlerEnv) (bucket key : String) (resp : S3GetResp) :
    HandlerOutcome :=
  match resp.bodyRead with
  | .error e => ⟨.error e, [.s3Get, .bodyRead], none⟩
  | .ok _ =>
      match env.decodeResult with
      | .error e =>
          ⟨.ok ⟨415, jsonDumps ("File is not a valid image: " ++ e)⟩,
           [.s3Get, .bodyRead, .decode], none⟩
      | .ok image =>
          let output_format := determine_output_format image.format image
          match env.resizeRaises with
          | some e =>
              ⟨.ok ⟨500, jsonDumps ("Failed to resize image: " ++ e)⟩,
               [.s3Get, .bodyRead, .decode], none⟩
          | none =>
              let image_to_save := transcode_pipeline env.transposeOp env.resample image output_format
              match env.saveRaises with
              | some e =>
                  ⟨.ok ⟨500, jsonDumps ("Failed to encode image: " ++ e)⟩,
                   [.s3Get, .bodyRead, .decode], none⟩
              | none =>
                  let output_key := build_output_key PROCESSED_PREFIX key output_format
                  let content_type :=
                    (ctGet output_format).getD
                      (match resp.contentType with
                       | none => "application/octet-stream"
                       | some ct => if ct = "" then "application/octet-stream" else ct)
                  match env.putResult with
                  | .error e =>
                      ⟨.ok ⟨500, jsonDumps ("Failed to write processed image: " ++ e)⟩,
                       [.s3Get, .bodyRead, .decode, .s3Put], none⟩
                  | .ok _ =>
                      ⟨.ok ⟨200, jsonDumps ("Processed " ++ key ++ " and saved to " ++ output_key)⟩,
                       [.s3Get, .bodyRead, .decode, .s3Put],
                       some ⟨bucket, output_key, content_type, resp.metadata, image_to_save⟩⟩

/-- Embedding of lambda_handler, source lines 57-170. -/
def lambda_handler (env : HandlerEnv) : HandlerOutcome :=
  match env.parsedRecord with
  | .error e => ⟨.ok ⟨400, jsonDumps ("Bad event: " ++ e)⟩, [], none⟩
  | .ok (bucket, key) =>
      if pyStartsWith key PROCESSED_PREFIX then
        ⟨.ok ⟨200, jsonDumps ("Skipping " ++ key ++ " because it is under the processed prefix.")⟩,
         [], none⟩
      else
        match env.getResult with
        | .error e => ⟨.ok ⟨500, jsonDumps ("Failed to get object: " ++ e)⟩, [.s3Get], none⟩
        | .ok resp =>
            match resp.contentLength with
            | some n =>
                if n ≠ 0 ∧ MAX_INPUT_SIZE_BYTES < n then
                  ⟨.ok ⟨413, jsonDumps ("Object too large (" ++ toString n ++ " bytes), skipping.")⟩,
                   [.s3Get], none⟩
                else handler_fetch_done env bucket key resp
            | none => handler_fetch_done env bucket key resp

/-! ### Concrete fixtures used by witnesses and counterexamples -/

/-- An opaque single-pixel RGB image with no source-format tag. -/
def cImgRGB : PImage := ⟨"RGB", 1, 1, [⟨0, 0, 0, 255⟩], false, none, none⟩

/-- A single-pixel RGBA image with partial alpha and no source-format tag. -/
def cImgRGBA : PImage := ⟨"RGBA", 1, 1, [⟨0, 0, 0, 128⟩], false, none, none⟩

/-- A single-pixel palette image whose only index maps to the colour
(10, 20, 30) and is listed as the transparency entry, decoded from a GIF. -/
def cImgP : PImage := ⟨"P", 1, 1, [⟨10, 20, 30, 0⟩], true, none, some "GIF"⟩

/-- A fully materialized decode of a 1x1 RGBA PNG. -/
def pngImg : PImage := ⟨"RGBA", 1, 1, [⟨1, 2, 3, 4⟩], false, none, some "PNG"⟩

/-- A fetch response that succeeds end to end. -/
def gOK : S3GetResp := ⟨some 100, some "image/png", [("k1", "v1")], .ok [1, 2, 3]⟩

/-- An environment for a fully successful invocation. -/
def envOK : HandlerEnv :=
  ⟨.ok ("bkt", "photos/in.png"), .ok gOK, .ok pngImg, idTranspose, idResample, none, none, .ok ()⟩

/-- The store write the successful invocation issues. -/
def pcOK : PutRequest :=
  ⟨"bkt", "processed/photos/in.png", "image/png", [("k1", "v1")],
   ⟨"RGBA", 256, 256, [⟨1, 2, 3, 4⟩], false, none, none⟩⟩

/-- A fetch response whose streaming body read raises. -/
def gBodyFail : S3GetResp := ⟨none, none, [], .error "connection reset"⟩

/-- An environment in which everything works except the body read. -/
def envBodyFail : HandlerEnv :=
  ⟨.ok ("bkt", "photos/in.png"), .ok gBodyFail, .error "unused", idTranspose, idResample,
   none, none, .ok ()⟩

/-- A fetch response reporting one byte more than the ceiling. -/
def g413 : S3GetResp := ⟨some (MAX_INPUT_SIZE_BYTES + 1), none, [], .ok []⟩

/-- An environment whose fetched object exceeds the size ceiling. -/
def env413 : HandlerEnv :=
  ⟨.ok ("bkt", "photos/in.png"), .ok g413, .ok pngImg, idTranspose, idResample, none, none, .ok ()⟩

/-- A fetch response with no reported content length. -/
def gNoCL : S3GetResp := ⟨none, none, [], .ok []⟩

/-- An environment whose fetched object reports no content length. -/
def envNoCL : HandlerEnv :=
  ⟨.ok ("bkt", "photos/in.png"), .ok gNoCL, .ok pngImg, idTranspose, idResample, none, none, .ok ()⟩

/-- A fetch response reporting a content length of zero. -/
def g0 : S3GetResp := ⟨some 0, none, [], .ok []⟩

/-- An environment whose fetched object reports a content length of zero. -/
def env0 : HandlerEnv :=
  ⟨.ok ("bkt", "photos/in.png"), .ok g0, .ok pngImg, idTranspose, idResample, none, none, .ok ()⟩

/-- An event whose key already lies under the processed prefix; the store
oracles are all failing, so any store touch would surface. -/
def envSkip : HandlerEnv :=
  ⟨.ok ("bkt", "processed/a.png"), .error "ignored", .error "ignored", idTranspose, idResample,
   none, none, .error "ignored"⟩

/-! ### Helper lemmas -/

/-- A recognized hint: present, non-empty, and its uppercasing a key of the
content-type table. -/
def hintRecognized (h : Option String) : Bool :=
  match h with
  | none => false
  | some s => s ≠ "" && (ctGet (pyUpper s)).isSome

lemma ctGet_isSome_cases (k : String) (h : (ctGet k).isSome = true) :
    k = "JPEG" ∨ k = "JPG" ∨ k = "PNG" ∨ k = "WEBP" := by
  by_cases h1 : k = "JPEG"
  · exact Or.inl h1
  by_cases h2 : k = "JPG"
  · exact Or.inr (Or.inl h2)
  by_cases h3 : k = "PNG"
  · exact Or.inr (Or.inr (Or.inl h3))
  by_cases h4 : k = "WEBP"
  · exact Or.inr (Or.inr (Or.inr h4))
  exfalso
  have hb1 : ("JPEG" == k) = false := by simp; exact fun hh => h1 hh.symm
  have hb2 : ("JPG" == k) = false := by simp; exact fun hh => h2 hh.symm
  have hb3 : ("PNG" == k) = false := by simp; exact fun hh => h3 hh.symm
  have hb4 : ("WEBP" == k) = false := by simp; exact fun hh => h4 hh.symm
  simp [ctGet, CONTENT_TYPE_MAP, List.find?, hb1, hb2, hb3, hb4] at h

lemma composite_for_jpeg_mode (image : PImage) : (composite_for_jpeg image).mode = "RGB" := by
  unfold composite_for_jpeg convert_RGB
  split <;> rfl

lemma normalize_mode_mode (image : PImage) :
    (normalize_mode image).mode = if pyContains image.mode 'A' then "RGBA" else "RGB" := by
  unfold normalize_mode convert_RGBA convert_RGB
  split <;> rfl

/-! ### C1 — format selection and the JPG hint -/

/-- C1 counterexample: a hint that uppercases to JPG is returned as the
string JPG itself — it is not normalized to JPEG, and the selected format is
then not one of the three canonical values JPEG, PNG, WEBP. -/
theorem determine_output_format_jpg_not_normalized :
    determine_output_format (some "jpg") cImgRGB = "JPG"
  ∧ determine_output_format (some "jpg") cImgRGB ≠ "JPEG"
  ∧ determine_output_format (some "jpg") cImgRGB ∉ (["JPEG", "PNG", "WEBP"] : List String) :=
  ⟨rfl, by decide, by decide⟩

/-- C1 amended: selectOutputFormat obeys the ordered rule list with the
content-type table as the recognizer — a present, non-empty hint whose
uppercasing is one of JPEG, JPG, PNG, WEBP is returned uppercased (JPG stays
JPG); otherwise PNG when the mode string carries an A, else the default JPEG;
the result is always one of JPEG, JPG, PNG, WEBP. -/
theorem determine_output_format_rule_list (h : Option String) (img : PImage) :
    (hintRecognized h = true → determine_output_format h img = pyUpper (h.getD ""))
  ∧ (hintRecognized h = false → pyContains img.mode 'A' = true →
       determine_output_format h img = "PNG")
  ∧ (hintRecognized h = false → pyContains img.mode 'A' = false →
       determine_output_format h img = "JPEG")
  ∧ (determine_output_format h img = "JPEG" ∨ determine_output_format h img = "JPG"
       ∨ determine_output_format h img = "PNG" ∨ determine_output_format h img = "WEBP") := by
  rcases h with _ | s
  · refine ⟨fun hc => by simp [hintRecognized] at hc, fun _ ha => ?_, fun _ ha => ?_, ?_⟩
    · simp [determine_output_format, ha]
    · simp [determine_output_format, ha, DEFAULT_OUTPUT_FORMAT]
    · by_cases ha : pyContains img.mode 'A' <;>
        simp [determine_output_format, ha, DEFAULT_OUTPUT_FORMAT]
  · by_cases he : s = ""
    · subst he
      refine ⟨fun hc => by simp [hintRecognized] at hc, fun _ ha => ?_, fun _ ha => ?_, ?_⟩
      · simp [determine_output_format, ha]
      · simp [determine_output_format, ha, DEFAULT_OUTPUT_FORMAT]
      · by_cases ha : pyContains img.mode 'A' <;>
          simp [determine_output_format, ha, DEFAULT_OUTPUT_FORMAT]
    · by_cases hk : (ctGet (pyUpper s)).isSome = true
      · refine ⟨fun _ => ?_, fun hc _ => ?_, fun hc _ => ?_, ?_⟩
        · simp [determine_output_format, he, hk]
        · simp [hintRecognized, he, hk] at hc
        · simp [hintRecognized, he, hk] at hc
        · have := ctGet_isSome_cases (pyUpper s) hk
          have hval : determine_output_format (some s) img = pyUpper s := by
            simp [determine_output_format, he, hk]
          rw [hval]
          tauto
      · have hkf : (ctGet (pyUpper s)).isSome = false := by
          simpa using hk
        refine ⟨fun hc => ?_, fun _ ha => ?_, fun _ ha => ?_, ?_⟩
        · simp [hintRecognized, he, hkf] at hc
        · simp [determine_output_format, he, hkf, ha]
        · simp [determine_output_format, he, hkf, ha, DEFAULT_OUTPUT_FORMAT]
        · by_cases ha : pyContains img.mode 'A' <;>
            simp [determine_output_format, he, hkf, ha, DEFAULT_OUTPUT_FORMAT]

/-- C1 witness: the amended rule list applied at concrete inputs — a
recognized WEBP hint is used, no hint with an alpha mode gives PNG, no hint
with an opaque mode gives the JPEG default. -/
theorem determine_output_format_rule_list_witness :
    determine_output_format (some "webp") cImgRGB = pyUpper ((some "webp").getD "")
  ∧ determine_output_format none cImgRGBA = "PNG"
  ∧ determine_output_format none cImgRGB = "JPEG" :=
  ⟨(determine_output_format_rule_list (some "webp") cImgRGB).1 (by decide),
   (determine_output_format_rule_list none cImgRGBA).2.1 rfl (by decide),
   (determine_output_format_rule_list none cImgRGB).2.2.1 rfl (by decide)⟩

/-! ### C2 — colour-mode normalization and palette transparency -/

/-- C2: the stage-3 normalization does land in the two canonical modes, but a
palette image with a transparency entry is converted to RGB, not RGBA — the
test at source line 115 looks for an A in the mode string and the letter P
carries none, so the transparency that convert-to-RGBA would have preserved
(alpha 0 on the transparent pixel) is destroyed. -/
theorem normalize_mode_palette_transparency_bug :
    cImgP.mode = "P"
  ∧ cImgP.hasTransparencyInfo = true
  ∧ (normalize_mode cImgP).mode = "RGB"
  ∧ (normalize_mode cImgP).pixels = [⟨10, 20, 30, 255⟩]
  ∧ (convert_RGBA cImgP).pixels = [⟨10, 20, 30, 0⟩]
  ∧ (∀ img, (normalize_mode img).mode = "RGB" ∨ (normalize_mode img).mode = "RGBA") := by
  refine ⟨rfl, rfl, rfl, rfl, rfl, fun img => ?_⟩
  rw [normalize_mode_mode]
  by_cases ha : pyContains img.mode 'A' <;> simp [ha]

/-! ### C3 — JPEG compositing and palette transparency -/

/-- C3: for a palette-with-transparency source resolved to JPEG, the pipeline
flattens the image to RGB at stage 3 before the compositing helper runs, so
the fully transparent black-ish pixel reaches the JPEG encoder as its palette
colour (10, 20, 30) instead of the white the compositing formula demands; the
compositing helper applied directly to the palette image (its own, now
unreachable, P branch) would have produced white.  The image handed to the
JPEG encoder is nevertheless always alpha-free (mode RGB). -/
theorem jpeg_composite_palette_bug :
    determine_output_format cImgP.format cImgP = "JPEG"
  ∧ (transcode_pipeline idTranspose idResample cImgP "JPEG").pixels = [⟨10, 20, 30, 255⟩]
  ∧ (composite_for_jpeg cImgP).pixels = [⟨255, 255, 255, 255⟩]
  ∧ (∀ t r img, (transcode_pipeline t r img "JPEG").mode = "RGB") := by
  refine ⟨rfl, by decide, by decide, fun t r img => ?_⟩
  unfold transcode_pipeline
  simp only [reduceIte]
  have hmode : (resize256 r (normalize_mode (exif_transpose t img))).mode =
      (normalize_mode (exif_transpose t img)).mode := rfl
  simp [composite_for_jpeg_mode]

/-! ### C9 — orientation normalization is idempotent -/

/-- C9: applying the orientation-normalization step twice yields the very
same image as applying it once — the first application either strips the
orientation tag (tags 2..8) or leaves a tag that triggers no transposition,
so the second application is the identity.  This holds for every
transposition the imaging library could implement. -/
theorem exif_transpose_idempotent (t : Nat → Nat × Nat × List Px → Nat × Nat × List Px)
    (img : PImage) :
    exif_transpose t (exif_transpose t img) = exif_transpose t img := by
  rcases ho : img.exifOrientation with _ | o
  · simp [exif_transpose, ho]
  · by_cases hr : 2 ≤ o ∧ o ≤ 8
    · simp [exif_transpose, ho, hr]
    · simp [exif_transpose, ho, hr]

/-! ### C6 — output-key derivation -/

/-- C6: the derived output key agrees with the spec-side mapKey on every
input (directory portion preserved, extension replaced by the lowercase
format name, processed prefix joined by exactly one separator), the two
examples of the spec evaluate as stated, and a prefix configured without a
trailing slash produces the same key as one with it. -/
theorem build_output_key_spec :
    build_output_key "processed/" "a/b/c.bmp" "PNG" = "processed/a/b/c.png"
  ∧ build_output_key "processed/" "c.bmp" "JPEG" = "processed/c.jpeg"
  ∧ (∀ pfx k f, build_output_key pfx k f = mapKey_spec k pfx f)
  ∧ (∀ k f, build_output_key "processed" k f = build_output_key "processed/" k f) := by
  have hs : rstrip_slash "processed" = rstrip_slash "processed/" := by decide
  refine ⟨by decide, by decide, fun pfx k f => rfl, fun k f => ?_⟩
  unfold build_output_key
  rw [hs]

/-! ### C4 — idempotent skip of already-processed keys -/

/-- C4: when the decoded key lies under the processed prefix the handler
returns status 200 with the skip message and touches the store not at all —
no fetch, no write, no external operation whatsoever. -/
theorem handler_skips_processed_prefix (env : HandlerEnv) (b k : String)
    (h1 : env.parsedRecord = Except.ok (b, k))
    (h2 : pyStartsWith k PROCESSED_PREFIX = true) :
    (lambda_handler env).response =
      Except.ok ⟨200, jsonDumps ("Skipping " ++ k ++ " because it is under the processed prefix.")⟩
  ∧ (lambda_handler env).effects = []
  ∧ (lambda_handler env).putCall = none := by
  unfold lambda_handler
  rw [h1]
  simp [h2]

/-- C4 witness: the skip run on a concrete environment whose store oracles
all fail — the theorem applies, so no store call was reachable. -/
theorem handler_skips_processed_prefix_witness :
    (lambda_handler envSkip).response =
      Except.ok ⟨200, jsonDumps ("Skipping " ++ "processed/a.png" ++ " because it is under the processed prefix.")⟩
  ∧ (lambda_handler envSkip).effects = []
  ∧ (lambda_handler envSkip).putCall = none :=
  handler_skips_processed_prefix envSkip "bkt" "processed/a.png" rfl (by decide)

/-! ### C8 — metadata passthrough -/

/-- C8: whenever the handler issues its store write, the metadata mapping it
carries is exactly the metadata mapping of the fetch response — copied
verbatim, no re-derivation, no merge. -/
theorem handler_metadata_passthrough (env : HandlerEnv) (g : S3GetResp) (pc : PutRequest)
    (h1 : env.getResult = Except.ok g)
    (h2 : (lambda_handler env).putCall = some pc) :
    pc.metadata = g.metadata := by
  have hfd : ∀ b k (resp : S3GetResp), (handler_fetch_done env b k resp).putCall = some pc →
      pc.metadata = resp.metadata := by
    intro b k resp hc
    unfold handler_fetch_done at hc
    rcases hbr : resp.bodyRead with e1 | body <;> simp only [hbr] at hc
    · exact Option.noConfusion hc
    · rcases hdr : env.decodeResult with e2 | img <;> simp only [hdr] at hc
      · exact Option.noConfusion hc
      · rcases hrz : env.resizeRaises with _ | e3 <;> simp only [hrz] at hc
        · rcases hsv : env.saveRaises with _ | e4 <;> simp only [hsv] at hc
          · rcases hpt : env.putResult with e5 | u <;> simp only [hpt] at hc
            · exact Option.noConfusion hc
            · rw [Option.some.injEq] at hc
              rw [← hc]
          · exact Option.noConfusion hc
        · exact Option.noConfusion hc
  unfold lambda_handler at h2
  rcases hpr : env.parsedRecord with e | ⟨b, k⟩ <;> simp only [hpr] at h2
  · exact Option.noConfusion h2
  by_cases hs : pyStartsWith k PROCESSED_PREFIX
  · simp [hs] at h2
  · have hsf : pyStartsWith k PROCESSED_PREFIX = false := by simpa using hs
    simp only [hsf, Bool.false_eq_true, if_false, h1] at h2
    rcases hcl : g.contentLength with _ | n <;> simp only [hcl] at h2
    · exact hfd b k g h2
    · by_cases hgt : n ≠ 0 ∧ MAX_INPUT_SIZE_BYTES < n
      · simp [hgt] at h2
      · rw [if_neg hgt] at h2
        exact hfd b k g h2

/-- C8 witness: the successful concrete run writes exactly the fetched
metadata mapping. -/
theorem handler_metadata_passthrough_witness : pcOK.metadata = gOK.metadata :=
  handler_metadata_passthrough envOK gOK pcOK rfl (by decide)

/-! ### C10 — a reported content length of zero bypasses the size check -/

/-- C10: a fetch response reporting contentLength zero makes the whole
invocation behave exactly as if the length were unreported (the guard tests
Python truthiness, and zero is falsy), and processing then proceeds to the
decode stage. -/
theorem handler_zero_content_length_bypass (env : HandlerEnv) (g : S3GetResp)
    (h1 : env.getResult = Except.ok g)
    (h2 : g.contentLength = some 0) :
    lambda_handler env = lambda_handler { env with getResult := Except.ok { g with contentLength := none } }
  ∧ (∀ b k body, env.parsedRecord = Except.ok (b, k) →
       pyStartsWith k PROCESSED_PREFIX = false → g.bodyRead = Except.ok body →
       Effect.decode ∈ (lambda_handler env).effects) := by
  have hno : ¬ ((0 : Nat) ≠ 0 ∧ MAX_INPUT_SIZE_BYTES < 0) := by omega
  constructor
  · unfold lambda_handler
    rcases hpr : env.parsedRecord with e | bk <;> simp only [hpr]
    obtain ⟨b, k⟩ := bk
    by_cases hs : pyStartsWith k PROCESSED_PREFIX
    · simp [hs]
    · have hsf : pyStartsWith k PROCESSED_PREFIX = false := by simpa using hs
      simp only [hsf, Bool.false_eq_true, if_false, h1, h2]
      rw [if_neg hno]
      rfl
  · intro b k body hpr hs hbody
    unfold lambda_handler
    simp only [hpr, hs, Bool.false_eq_true, if_false, h1, h2]
    rw [if_neg hno]
    unfold handler_fetch_done
    simp only [hbody]
    rcases hdr : env.decodeResult with e2 | img <;> simp only [hdr]
    · simp
    · rcases hrz : env.resizeRaises with _ | e3 <;> simp only [hrz]
      · rcases hsv : env.saveRaises with _ | e4 <;> simp only [hsv]
        · rcases hpt : env.putResult with e5 | u <;> simp only [hpt] <;> simp
        · simp
      · simp

/-! ### C5 and C7 helper lemmas about the post-fetch stages -/

lemma handler_fetch_done_ok_status (env : HandlerEnv) (b k : String) (resp : S3GetResp)
    (r : Response)
    (hr : (handler_fetch_done env b k resp).response = Except.ok r) :
    r.statusCode = 200 ∨ r.statusCode = 415 ∨ r.statusCode = 500 := by
  unfold handler_fetch_done at hr
  repeat' split at hr
  all_goals first
    | (injection hr with h; rw [← h]; simp)
    | injection hr

lemma handler_fetch_done_error (env : HandlerEnv) (b k : String) (resp : S3GetResp)
    (e : String)
    (he : (handler_fetch_done env b k resp).response = Except.error e) :
    resp.bodyRead = Except.error e := by
  unfold handler_fetch_done at he
  rcases hbr : resp.bodyRead with e1 | body <;> simp only [hbr] at he
  · injection he with h
    rw [← h]
  · rcases hdr : env.decodeResult with e2 | img <;> simp only [hdr] at he
    · exact absurd he (by simp)
    · rcases hrz : env.resizeRaises with _ | e3 <;> simp only [hrz] at he
      · rcases hsv : env.saveRaises with _ | e4 <;> simp only [hsv] at he
        · rcases hpt : env.putResult with e5 | u <;> simp only [hpt] at he
          · exact absurd he (by simp)
          · exact absurd he (by simp)
        · exact absurd he (by simp)
      · exact absurd he (by simp)

lemma handler_fetch_done_decode_effect (env : HandlerEnv) (b k : String) (resp : S3GetResp)
    (body : List Nat) (hb : resp.bodyRead = Except.ok body) :
    Effect.decode ∈ (handler_fetch_done env b k resp).effects := by
  unfold handler_fetch_done
  simp only [hb]
  rcases hdr : env.decodeResult with e2 | img <;> simp only [hdr]
  · simp
  · rcases hrz : env.resizeRaises with _ | e3 <;> simp only [hrz]
    · rcases hsv : env.saveRaises with _ | e4 <;> simp only [hsv]
      · rcases hpt : env.putResult with e5 | u <;> simp only [hpt] <;> simp
      · simp
    · simp

/-! ### C5 — size ceiling -/

/-- C5: a fetched object whose reported content length strictly exceeds the
ceiling yields the 413 outcome with neither a decode nor a store write, and
an object with no reported content length passes validation — the outcome is
never 413 and, once the body is read, processing reaches the decode stage. -/
theorem handler_size_ceiling (env : HandlerEnv) (b k : String) (g : S3GetResp)
    (h1 : env.parsedRecord = Except.ok (b, k))
    (h2 : pyStartsWith k PROCESSED_PREFIX = false)
    (h3 : env.getResult = Except.ok g) :
    (∀ n, g.contentLength = some n → MAX_INPUT_SIZE_BYTES < n →
       (lambda_handler env).response =
         Except.ok ⟨413, jsonDumps ("Object too large (" ++ toString n ++ " bytes), skipping.")⟩
       ∧ Effect.decode ∉ (lambda_handler env).effects
       ∧ Effect.s3Put ∉ (lambda_handler env).effects
       ∧ (lambda_handler env).putCall = none)
  ∧ (g.contentLength = none →
       (∀ r, (lambda_handler env).response = Except.ok r → r.statusCode ≠ 413)
       ∧ (∀ body, g.bodyRead = Except.ok body →
            Effect.decode ∈ (lambda_handler env).effects)) := by
  constructor
  · intro n hn hgt
    have hcond : n ≠ 0 ∧ MAX_INPUT_SIZE_BYTES < n := ⟨by omega, hgt⟩
    unfold lambda_handler
    simp only [h1, h2, Bool.false_eq_true, if_false, h3, hn]
    rw [if_pos hcond]
    exact ⟨rfl, by simp, by simp, rfl⟩
  · intro hn
    constructor
    · intro r hr
      unfold lambda_handler at hr
      simp only [h1, h2, Bool.false_eq_true, if_false, h3, hn] at hr
      have := handler_fetch_done_ok_status env b k g r hr
      omega
    · intro body hbody
      unfold lambda_handler
      simp only [h1, h2, Bool.false_eq_true, if_false, h3, hn]
      exact handler_fetch_done_decode_effect env b k g body hbody

/-- C5 witness: a concrete object one byte over the ceiling is rejected with
413 and no decode or write, and a concrete object with no reported length
reaches the decode stage with a non-413 outcome. -/
theorem handler_size_ceiling_witness :
    ((lambda_handler env413).response =
       Except.ok ⟨413, jsonDumps ("Object too large (" ++ toString (MAX_INPUT_SIZE_BYTES + 1) ++ " bytes), skipping.")⟩
     ∧ Effect.decode ∉ (lambda_handler env413).effects
     ∧ Effect.s3Put ∉ (lambda_handler env413).effects
     ∧ (lambda_handler env413).putCall = none)
  ∧ (⟨200, "\"Processed photos/in.png and saved to processed/photos/in.png\""⟩ : Response).statusCode ≠ 413
  ∧ Effect.decode ∈ (lambda_handler envNoCL).effects :=
  ⟨(handler_size_ceiling env413 "bkt" "photos/in.png" g413 rfl (by decide) rfl).1
     (MAX_INPUT_SIZE_BYTES + 1) rfl (by decide),
   ((handler_size_ceiling envNoCL "bkt" "photos/in.png" gNoCL rfl (by decide) rfl).2 rfl).1
     ⟨200, "\"Processed photos/in.png and saved to processed/photos/in.png\""⟩ rfl,
   ((handler_size_ceiling envNoCL "bkt" "photos/in.png" gNoCL rfl (by decide) rfl).2 rfl).2
     [] rfl⟩

/-! ### C7 — outcome shape and exception propagation -/

/-- C7 counterexample: a failure while reading the fetched body (source line
96, the only store or codec call outside every try block) propagates out of
the handler as an exception instead of being converted into a status
outcome. -/
theorem handler_body_read_exception_escapes :
    (lambda_handler envBodyFail).response = Except.error "connection reset"
  ∧ (lambda_handler envBodyFail).effects = [Effect.s3Get, Effect.bodyRead]
  ∧ (lambda_handler envBodyFail).putCall = none :=
  ⟨rfl, rfl, rfl⟩

/-- C7 amended: whenever the handler returns a value it has the documented
shape — the status code is one of 200, 400, 413, 415, 500 according to the
failing stage — and the only way an exception escapes the handler is a
failure of the body read at source line 96; every other stage converts its
failure locally. -/
theorem handler_status_codes (env : HandlerEnv) :
    (∀ r, (lambda_handler env).response = Except.ok r →
       r.statusCode = 200 ∨ r.statusCode = 400 ∨ r.statusCode = 413 ∨
       r.statusCode = 415 ∨ r.statusCode = 500)
  ∧ (∀ e, (lambda_handler env).response = Except.error e →
       ∃ g, env.getResult = Except.ok g ∧ g.bodyRead = Except.error e) := by
  constructor
  · intro r hr
    unfold lambda_handler handler_fetch_done at hr
    repeat' split at hr
    all_goals first
      | (injection hr with h; rw [← h]; simp)
      | injection hr
  · intro e he
    unfold lambda_handler at he
    rcases hpr : env.parsedRecord with e0 | ⟨b, k⟩ <;> simp only [hpr] at he
    · exact absurd he (by simp)
    · by_cases hs : pyStartsWith k PROCESSED_PREFIX
      · simp [hs] at he
      · have hsf : pyStartsWith k PROCESSED_PREFIX = false := by simpa using hs
        simp only [hsf, Bool.false_eq_true, if_false] at he
        rcases hgr : env.getResult with e2 | g <;> simp only [hgr] at he
        · exact absurd he (by simp)
        · rcases hcl : g.contentLength with _ | n <;> simp only [hcl] at he
          · exact ⟨g, rfl, handler_fetch_done_error env b k g e he⟩
          · by_cases hgt : n ≠ 0 ∧ MAX_INPUT_SIZE_BYTES < n
            · rw [if_pos hgt] at he
              exact absurd he (by simp)
            · rw [if_neg hgt] at he
              exact ⟨g, rfl, handler_fetch_done_error env b k g e he⟩

/-- C7 witness: the status-code enumeration applied to the concrete
successful run, and the exception characterization applied to the concrete
body-read failure. -/
theorem handler_status_codes_witness :
    ((⟨200, "\"Processed photos/in.png and saved to processed/photos/in.png\""⟩ : Response).statusCode = 200
     ∨ (⟨200, "\"Processed photos/in.png and saved to processed/photos/in.png\""⟩ : Response).statusCode = 400
     ∨ (⟨200, "\"Processed photos/in.png and saved to processed/photos/in.png\""⟩ : Response).statusCode = 413
     ∨ (⟨200, "\"Processed photos/in.png and saved to processed/photos/in.png\""⟩ : Response).statusCode = 415
     ∨ (⟨200, "\"Processed photos/in.png and saved to processed/photos/in.png\""⟩ : Response).statusCode = 500)
  ∧ (∃ g, envBodyFail.getResult = Except.ok g ∧ g.bodyRead = Except.error "connection reset") :=
  ⟨(handler_status_codes envOK).1
     ⟨200, "\"Processed photos/in.png and saved to processed/photos/in.png\""⟩ rfl,
   (handler_status_codes envBodyFail).2 "connection reset" rfl⟩

/-- C10 witness: the concrete zero-length run equals its unreported-length
variant and reaches the decode stage. -/
theorem handler_zero_content_length_bypass_witness :
    lambda_handler env0 = lambda_handler { env0 with getResult := Except.ok { g0 with contentLength := none } }
  ∧ Effect.decode ∈ (lambda_handler env0).effects :=
  ⟨(handler_zero_content_length_bypass env0 g0 rfl rfl).1,
   (handler_zero_content_length_bypass env0 g0 rfl rfl).2 "bkt" "photos/in.png" [] rfl
     (by decide) rfl⟩

end ImgPipe
